import Mathlib

/-!
Shallow embedding of `src/tg2md.py` (tg2obsidian): a converter from a
Telegram JSON export to per-post markdown files.  Python strings are
modelled by `String`, dictionaries by structures with `Option` fields
(a missing key access raises `KeyError`), and Python exceptions by
`Except PyErr`.  All definitions are translated from the source file;
functions whose name matches the source keep that name.
-/

namespace Tg2md

/-- Python exceptions that the modelled code can raise. -/
inductive PyErr where
  /-- `post[k]` with key `k` absent. -/
  | keyError (k : String)
  /-- subscripting a `str` with a string key, e.g. `"hello"['type']`. -/
  | typeError
  /-- referencing a local variable before assignment. -/
  | unboundLocalError (v : String)
  deriving Repr, DecidableEq

/-- `post[k]`: dictionary key access; raises `KeyError` when the key is absent. -/
def getKey (k : String) : Option α → Except PyErr α
  | some v => .ok v
  | none => .error (.keyError k)

/-- Python `bool` used as an `int` factor (`True = 1`, `False = 0`). -/
def boolNat (b : Bool) : Nat := if b then 1 else 0

/-- Python string repetition `s * n`. -/
def strRepeat (s : String) (n : Nat) : String :=
  String.join (List.replicate n s)

/-- Python whitespace stripped by `str.strip()` (ASCII part; exotic Unicode
whitespace is not modelled). -/
def isPyWhitespace (c : Char) : Bool :=
  c == ' ' || c == '\t' || c == '\n' || c == '\r' || c == '\x0b' || c == '\x0c'

/-- Python `str.strip()`. -/
def pyStrip (s : String) : String :=
  String.mk (((s.toList.dropWhile isPyWhitespace).reverse.dropWhile isPyWhitespace).reverse)

/-- Python `s.count(c)` for a single-character needle. -/
def countChar (s : String) (c : Char) : Nat :=
  s.toList.count c

/-- `leadsWith pat l`: `pat` is a leading segment of `l` (Boolean). -/
def leadsWith : List Char → List Char → Bool
  | [], _ => true
  | _ :: _, [] => false
  | a :: as, b :: bs => a == b && leadsWith as bs

/-- `hasSegment pat l`: `pat` occurs contiguously inside `l` (Boolean). -/
def hasSegment (pat : List Char) : List Char → Bool
  | [] => leadsWith pat []
  | b :: bs => leadsWith pat (b :: bs) || hasSegment pat bs

/-- `sub` occurs as a contiguous substring of `s` (Boolean). -/
def strContainsSub (s sub : String) : Bool :=
  hasSegment sub.toList s.toList

/-- Python `str.split(sep)` for a single-character separator, on character
lists (structural recursion, so proofs can evaluate it). -/
def splitChar (c : Char) : List Char → List (List Char)
  | [] => [[]]
  | a :: as =>
    match splitChar c as with
    | [] => []
    | h :: t => if a == c then [] :: h :: t else (a :: h) :: t

/-- Python `s.split(c)` for a one-character separator. -/
def pySplitChar (s : String) (c : Char) : List String :=
  (splitChar c s.toList).map String.mk

/-- Python `s.startswith(pre)`. -/
def pyStartsWith (s pre : String) : Bool :=
  leadsWith pre.toList s.toList

/-- Python `s.endswith(suf)`. -/
def pyEndsWith (s suf : String) : Bool :=
  leadsWith suf.toList.reverse s.toList.reverse

/-- Python `sep.join(parts)`. -/
def pyJoin (sep : String) : List String → String
  | [] => ""
  | h :: t => t.foldl (fun acc x => acc ++ sep ++ x) h

/-- One span object of a post's `text_entities` array.  `type` and `text`
are always present in the export format; `href` (links) and `document_id`
(custom emoji) are kind-specific and may be absent. -/
structure TextObj where
  type : String
  text : String
  href : Option String := none
  document_id : Option String := none
  deriving Repr, DecidableEq

/-- One element of a `text_entities` array: either a bare string or a span
object (the code tolerates both shapes in the JSON). -/
inductive TextEnt where
  | str (s : String)
  | obj (o : TextObj)
  deriving Repr, DecidableEq

/-- The `text_entities` field of a post: a plain string or an array of
elements. -/
inductive TextField where
  | str (s : String)
  | arr (l : List TextEnt)
  deriving Repr, DecidableEq

/-- One post record of the archive.  Fields mirror the JSON keys read by the
code; `Option.none` models an absent key.  `fromName?` models the JSON key
`from` (a Lean keyword). -/
structure Post where
  id? : Option Int := none
  type? : Option String := none
  date? : Option String := none
  text_entities? : Option TextField := none
  action? : Option String := none
  from_id? : Option String := none
  fromName? : Option String := none
  forwarded_from? : Option String := none
  saved_from? : Option String := none
  photo? : Option String := none
  media_type? : Option String := none
  file? : Option String := none
  deriving Repr

/-- Models `str(datetime.fromisoformat(s))` for canonical
`YYYY-MM-DDTHH:MM:SS` inputs: Python re-prints the datetime with a space
in place of the `T` separator.  Malformed date strings (which would raise
`ValueError`) are outside the modelled input space. -/
def fromisoformat_str (s : String) : String :=
  String.mk (s.toList.map fun c => if c == 'T' then ' ' else c)

/-- Models `str(datetime.fromisoformat(s).date())` for canonical ISO
timestamps: the calendar-date part, i.e. the first ten characters. -/
def date_part (s : String) : String :=
  String.mk (s.toList.take 10)

/-- `deserialize_string` (tg2md.py lines 114-122).  The Python body calls
`text.replace(...)` five times but never binds a result; `str.replace`
returns a new string and Python strings are immutable, so the function
returns its argument unchanged. -/
def deserialize_string (text : String) : String :=
  text

/-- `text_format` (tg2md.py lines 92-107).  Note the first condition's tuple
already contains the triple-backtick marker, so the `elif fmt == '```'`
branch (which would put each fence on its own line) is unreachable.  The
trailing suffix reproduces
`'\n' * string.split('\n').count('') * string.endswith('\n')`. -/
def text_format (string fmt : String) : String :=
  let output :=
    if fmt == "*" || fmt == "**" || fmt == "***" || fmt == "`" || fmt == "```" then
      fmt ++ pyStrip string ++ fmt
    else if fmt == "```" then
      fmt ++ "\n" ++ pyStrip string ++ "\n" ++ fmt
    else
      "<" ++ fmt ++ ">" ++ pyStrip string ++ "</" ++ fmt ++ ">"
  output ++ strRepeat "\n" ((pySplitChar string '\n').count "" * boolNat (pyEndsWith string "\n"))

/-- `text_link_format` (tg2md.py lines 125-144): zero-width-marker texts
become an inline-image block quote; otherwise in-channel `t.me/c/` links are
turned into `#`-anchors and the span becomes a markdown link, with
`'\n' * text.count('\n') * text.endswith('\n')` appended. -/
def text_link_format (text link : String) : String :=
  if text == "\u200B" || text == "\u200B\u200B" || text == "\u00A0" then
    "> ![](" ++ link ++ ")\n\n"
  else
    let link :=
      if pyStartsWith link "https://t.me/c/" then
        "#" ++ (pySplitChar link '/').getLastD ""
      else link
    let link_fmt := "[" ++ text ++ "](" ++ link ++ ")"
    link_fmt ++ strRepeat "\n" (countChar text '\n' * boolNat (pyEndsWith text "\n"))

/-- The `re.sub(r'( |\\|/|\(|\))', r'\\\g<1>', document_id)` step of the
`custom_emoji` branch: each space, backslash, slash or parenthesis gets a
backslash prefixed. -/
def escape_document_id (s : String) : String :=
  String.mk (s.toList.foldr
    (fun c acc =>
      if c == ' ' || c == '\\' || c == '/' || c == '(' || c == ')' then
        '\\' :: c :: acc
      else c :: acc) [])

/-- `parse_text_object` (tg2md.py lines 146-222).  Dispatches on the span's
`type` tag.  A bare-string element subscripted with `'type'` raises
`TypeError` (Python: string indices must be integers).  The unknown-kind
branch logs a warning and returns `None`; log output is not part of the
value model. -/
def parse_text_object (post_id : Int) (ent : TextEnt) : Except PyErr (Option String) :=
  match ent with
  | .str _ => .error .typeError
  | .obj obj =>
    let obj_type := obj.type
    let obj_text := deserialize_string obj.text
    if obj_type == "text_link" then do
      let href ← getKey "href" obj.href
      .ok (some (text_link_format obj_text href))
    else if obj_type == "link" || obj_type == "email" then
      let link := pyStrip obj_text
      let link := strRepeat "https://"
        (boolNat (obj_type == "link") * (1 - boolNat (pyStartsWith link "https://"))) ++ link
      .ok (some ("<" ++ link ++ ">"))
    else if obj_type == "phone" then
      .ok (some obj_text)
    else if obj_type == "italic" then
      .ok (some (text_format obj_text "*"))
    else if obj_type == "bold" then
      .ok (some (text_format obj_text "**"))
    else if obj_type == "code" then
      .ok (some (text_format obj_text "`"))
    else if obj_type == "pre" then
      .ok (some (text_format obj_text "```"))
    else if obj_type == "underline" then
      .ok (some (text_format obj_text "u"))
    else if obj_type == "strikethrough" then
      .ok (some (text_format obj_text "s"))
    else if obj_type == "plain" then
      .ok (some obj_text)
    else if obj_type == "bank_card" then
      .ok (some obj_text)
    else if obj_type == "mention" then
      .ok (some ("https://t.me/" ++ obj_text.drop 1))
    else if obj_type == "blockquote" then
      .ok (some ("> " ++ obj_text))
    else if obj_type == "custom_emoji" then do
      let document_id ← getKey "document_id" obj.document_id
      let document_id := escape_document_id document_id
      .ok (some ("![" ++ obj_text ++ "](" ++ document_id ++ ")\n\n"))
    else if obj_type == "spoiler" then
      .ok (some ("> [!info]\n> " ++ obj_text ++ "\n\n"))
    else if obj_type == "hashtag" then
      .ok none
    else
      .ok none

/-- One iteration of the tag-collecting loop in `parse_tags` (tg2md.py
lines 27-29): a span object whose `type` is `hashtag` appends its text; a
bare-string element subscripted with `'type'` raises `TypeError`. -/
def tags_step (acc : List String) (e : TextEnt) : Except PyErr (List String) :=
  match e with
  | .str _ => .error .typeError
  | .obj o => .ok (if o.type == "hashtag" then acc ++ [o.text] else acc)

/-- `parse_tags` (tg2md.py lines 24-31).  The caller passes the raw
`post['text_entities']` value.  Iterating a list visits its elements;
iterating a plain string visits its characters, so any nonempty string
raises `TypeError` at its first character (a `str` subscripted with
`'type'`), while the empty string yields no tags. -/
def parse_tags (text_entities : TextField) : Except PyErr String := do
  let tags ←
    match text_entities with
    | .str s => if s.isEmpty then .ok ([] : List String) else .error .typeError
    | .arr l => l.foldlM tags_step []
  .ok (pyJoin " " tags)

/-- The `forwarded_from` header line (tg2md.py lines 56-57); the Python
literal `"forwarded\_from"` keeps the backslash (`\_` is not an escape). -/
def forwarded_part (post : Post) : String :=
  match post.forwarded_from? with
  | some v => "forwarded\\_from: '" ++ v ++ "'\n"
  | none => ""

/-- The `saved_from` header line (tg2md.py lines 59-60). -/
def saved_part (post : Post) : String :=
  match post.saved_from? with
  | some v => "saved\\_from: '" ++ v ++ "'\n"
  | none => ""

/-- `print_default_post_header` (tg2md.py lines 33-65).  When the post's
`from_id` differs from `'user' + str(user_id)`, the code executes
`from_header += ...` on the never-assigned local `from_header`, raising
`UnboundLocalError` before the `from` line could be built. -/
def print_default_post_header (post : Post) (user_id : Int) : Except PyErr String := do
  let post_title ← getKey "id" post.id?
  let post_date_raw ← getKey "date" post.date?
  let post_date := fromisoformat_str post_date_raw
  let ents ← getKey "text_entities" post.text_entities?
  let post_tags ← parse_tags ents
  let post_header := "---\n" ++ "title: " ++ toString post_title ++ "\n" ++
    "date: " ++ post_date ++ "\n"
  let post_header :=
    if post_tags == "" then post_header
    else post_header ++ "tags: " ++ post_tags ++ "\n"
  let post_header ←
    match post.from_id? with
    | some fid =>
      if fid == "user" ++ toString user_id then
        pure post_header
      else
        (.error (.unboundLocalError "from_header") : Except PyErr String)
    | none => pure post_header
  let post_header := post_header ++ forwarded_part post
  let post_header := post_header ++ saved_part post
  .ok (post_header ++ "layout: post\n" ++ "---\n")

/-- `parse_post_photo` (tg2md.py lines 81-89): markdown image link for the
post's `photo` field (the `photo_dir` argument is unused by the source). -/
def parse_post_photo (post : Post) : Except PyErr String := do
  let src ← getKey "photo" post.photo?
  .ok ("![image](" ++ src ++ ")\n\n")

/-- One iteration of the span loop in `parse_post_text` (tg2md.py lines
235-239).  The loop guard `isinstance(post_raw_text, str)` tests the whole
list (which is not a `str` on this path), so every element — bare strings
included — is passed to `parse_text_object`, and the result is appended
only when it is not `None`. -/
def body_step (post_id : Int) (acc : String) (obj : TextEnt) : Except PyErr String := do
  match (← parse_text_object post_id obj) with
  | some text => .ok (acc ++ text)
  | none => .ok acc

/-- The span-sequencing loop of `parse_post_text` over an array-valued
`text_entities`. -/
def render_spans (post_id : Int) (objs : List TextEnt) : Except PyErr String :=
  objs.foldlM (body_step post_id) ""

/-- `parse_post_text` (tg2md.py lines 225-241): a plain-string
`text_entities` is returned verbatim; an array is folded span by span. -/
def parse_post_text (post : Post) : Except PyErr String := do
  let post_id ← getKey "id" post.id?
  let post_raw_text ← getKey "text_entities" post.text_entities?
  match post_raw_text with
  | .str s => .ok s
  | .arr objs => render_spans post_id objs

/-- `parse_post_media` (tg2md.py lines 243-251): Obsidian embed for the
post's `file` field (the `media_dir` argument is unused by the source). -/
def parse_post_media (post : Post) : Except PyErr String := do
  let src ← getKey "file" post.file?
  .ok ("![[" ++ src ++ "]]\n\n")

/-- `parse_post` (tg2md.py lines 254-273): optional photo embed, then
optional media embed, then the rendered text. -/
def parse_post (post : Post) : Except PyErr String := do
  let photo_part ←
    match post.photo? with
    | some _ => parse_post_photo post
    | none => pure ""
  let media_part ←
    match post.media_type? with
    | some _ => parse_post_media post
    | none => pure ""
  let text_part ← parse_post_text post
  .ok (photo_part ++ media_part ++ text_part)

/-- Accumulated effect of the per-post loop in `main`: files written so far
(name, content) and warning messages logged so far. -/
structure RunState where
  written : List (String × String)
  warnings : List String
  deriving Repr, DecidableEq

/-- The warning text of the unsupported-type branch of `main` (tg2md.py
lines 358-360). -/
def unsupported_warning (post_id : Int) (ptype : String) : String :=
  "The type of post #" ++ toString post_id ++ " is '" ++ ptype ++
    "' and it is not supported."

/-- One iteration of the post loop in `main` (tg2md.py lines 341-360).
`message` posts get a file whose content is the header, a newline (from
`print`), the body, and a final newline; `service`/`clear_history` posts
are skipped silently; anything else is skipped with a warning (which itself
reads `post['id']`).  No exception is caught: any `KeyError` raised here
propagates out of the loop. -/
def process_one (user_id : Int) (s : RunState) (post : Post) : Except PyErr RunState := do
  let ptype ← getKey "type" post.type?
  if ptype == "message" then
    let d ← getKey "date" post.date?
    let pid ← getKey "id" post.id?
    let filename := date_part d ++ "-" ++ toString pid ++ ".md"
    let header ← print_default_post_header post user_id
    let body ← parse_post post
    .ok { s with written := s.written ++ [(filename, header ++ "\n" ++ body ++ "\n")] }
  else if ptype == "service" then do
    let action ← getKey "action" post.action?
    if action == "clear_history" then
      .ok s
    else do
      let pid ← getKey "id" post.id?
      .ok { s with warnings := s.warnings ++ [unsupported_warning pid ptype] }
  else do
    let pid ← getKey "id" post.id?
    .ok { s with warnings := s.warnings ++ [unsupported_warning pid ptype] }

/-- The whole post loop of `main` over the archive's `messages` array, for
owner account id `user_id`. -/
def process_posts (user_id : Int) (posts : List Post) : Except PyErr RunState :=
  posts.foldlM (process_one user_id) ⟨[], []⟩

/-! ### Specification-side definitions

These follow the spec's words (not the code) and are compared with the
embedded code in refinement-style theorems. -/

/-- Follows the spec's words for the link-with-display-text rule, amended to
what the code does: a zero-width-marker text (zero-width space, doubled
zero-width space, or non-breaking space) renders as a block-quoted image
embed of the href; any other text renders as a markdown link whose target
is the href, except that an href starting with `https://t.me/c/` is
replaced by `#` plus the part after its final slash; when the display text
ends with a newline, as many extra newlines as the text contains are
appended. -/
def text_link_spec (text link : String) : String :=
  if text = "\u200B" ∨ text = "\u200B\u200B" ∨ text = "\u00A0" then
    "> ![](" ++ link ++ ")\n\n"
  else
    let target :=
      if pyStartsWith link "https://t.me/c/" then
        "#" ++ (pySplitChar link '/').getLastD ""
      else link
    "[" ++ text ++ "](" ++ target ++ ")" ++
      strRepeat "\n" (if pyEndsWith text "\n" then countChar text '\n' else 0)

/-- Follows the spec's words for bare link / email spans: normalize by
trimming; if the kind is `link` and the trimmed text lacks an `https://`
prefix, prepend it; render as an angle-bracket-wrapped autolink. -/
def autolink_spec (kind text : String) : String :=
  let t := pyStrip text
  let t :=
    if kind = "link" ∧ ¬ pyStartsWith t "https://" = true then "https://" ++ t
    else t
  "<" ++ t ++ ">"

/-- The texts of a span list's hashtag spans, in order, duplicates kept
(the spec's description of the header's `tags` content). -/
def hashtag_texts (l : List TextObj) : List String :=
  l.filterMap fun o => if o.type == "hashtag" then some o.text else none

/-! ### Concrete inputs used by individual claims -/

/-- A `message` post lacking the required `text_entities` field. -/
def c3_bad : Post :=
  { id? := some 1, type? := some "message", date? := some "2021-01-01T00:00:00" }

/-- A well-formed `message` post with an empty plain-string text. -/
def c3_good : Post :=
  { id? := some 2, type? := some "message", date? := some "2021-01-02T00:00:00",
    text_entities? := some (.str "") }

/-- A `service` post with the recognized `clear_history` action. -/
def c3_svc : Post :=
  { id? := some 3, type? := some "service", action? := some "clear_history" }

/-- A post whose `from_id` differs from the owner's synthesized identity. -/
def c4_post : Post :=
  { id? := some 1, type? := some "message", date? := some "2021-01-01T00:00:00",
    text_entities? := some (.arr []), from_id? := some "user999",
    fromName? := some "Alice" }

/-- The same post but sent by the owning account (`from_id = "user1"`). -/
def c4_post_same : Post :=
  { id? := some 1, type? := some "message", date? := some "2021-01-01T00:00:00",
    text_entities? := some (.arr []), from_id? := some "user1",
    fromName? := some "Alice" }

/-- A post whose `text_entities` array holds a bare string element. -/
def c6_post : Post :=
  { id? := some 1, text_entities? := some (.arr [.str "hello"]) }

/-- A post whose `text_entities` array holds only span objects. -/
def c6_post_objs : Post :=
  { id? := some 1, text_entities? := some (.arr
      [.obj { type := "plain", text := "hi" },
       .obj { type := "hashtag", text := "#x" },
       .obj { type := "bold", text := " b " }]) }

/-- A post with exactly one hashtag span whose text is empty. -/
def c8_post : Post :=
  { id? := some 1, date? := some "2021-01-01T00:00:00",
    text_entities? := some (.arr [.obj { type := "hashtag", text := "" }]) }

/-- A post with two hashtag spans and a plain span. -/
def c8_post_tags : Post :=
  { id? := some 4, date? := some "2021-03-04T05:06:07",
    text_entities? := some (.arr
      [.obj { type := "hashtag", text := "#a" },
       .obj { type := "plain", text := "x" },
       .obj { type := "hashtag", text := "#b" }]) }

/-! ### Helper lemmas -/

theorem except_error_bind (e : ε) (f : α → Except ε β) :
    (Except.error e >>= f) = Except.error e := rfl

theorem except_ok_bind (a : α) (f : α → Except ε β) :
    (Except.ok a >>= f : Except ε β) = f a := rfl

/-- Folding with an effect-free element in the middle skips it. -/
theorem foldlM_except_skip {ε σ α : Type} (f : σ → α → Except ε σ) (x : α)
    (hx : ∀ acc, f acc x = .ok acc) :
    ∀ (pre suf : List α) (acc : σ),
      List.foldlM f acc (pre ++ x :: suf) = List.foldlM f acc (pre ++ suf) := by
  intro pre
  induction pre with
  | nil =>
    intro suf acc
    simp [List.foldlM_cons, hx, except_ok_bind]
  | cons p ps ih =>
    intro suf acc
    simp only [List.cons_append, List.foldlM_cons]
    cases h : f acc p with
    | error e => simp [except_error_bind]
    | ok s => simp [except_ok_bind, ih]

/-- An error raised at one element propagates out of the whole fold. -/
theorem foldlM_except_abort {ε σ α : Type} (f : σ → α → Except ε σ) :
    ∀ (pre : List α) (init s : σ) (p : α) (rest : List α) (e : ε),
      List.foldlM f init pre = .ok s → f s p = .error e →
      List.foldlM f init (pre ++ p :: rest) = .error e := by
  intro pre
  induction pre with
  | nil =>
    intro init s p rest e h1 h2
    simp only [List.foldlM_nil] at h1
    cases h1
    simp [List.foldlM_cons, h2, except_error_bind]
  | cons a as ih =>
    intro init s p rest e h1 h2
    simp only [List.foldlM_cons] at h1
    cases ha : f init a with
    | error e0 => rw [ha, except_error_bind] at h1; cases h1
    | ok s1 =>
      rw [ha, except_ok_bind] at h1
      simp only [List.cons_append, List.foldlM_cons, ha, except_ok_bind]
      exact ih s1 s p rest e h1 h2

/-- A hashtag span renders to `None` in the per-span formatter. -/
theorem parse_text_object_hashtag (pid : Int) (o : TextObj)
    (ho : o.type = "hashtag") :
    parse_text_object pid (.obj o) = .ok none := by
  simp [parse_text_object, ho]

/-- The tag-collecting fold over an all-object span list never fails and
collects exactly the hashtag texts. -/
theorem tags_fold_objs :
    ∀ (l : List TextObj) (acc : List String),
      List.foldlM tags_step acc (l.map TextEnt.obj) = .ok (acc ++ hashtag_texts l) := by
  intro l
  induction l with
  | nil => intro acc; simp [hashtag_texts]; rfl
  | cons o os ih =>
    intro acc
    simp only [List.map_cons, List.foldlM_cons, tags_step, except_ok_bind]
    rw [ih]
    by_cases h : o.type = "hashtag"
    · simp [hashtag_texts, h, List.filterMap_cons, List.append_assoc]
    · simp [hashtag_texts, h, List.filterMap_cons]

/-- `parse_tags` on an all-object span list space-joins the hashtag texts. -/
theorem parse_tags_objs (l : List TextObj) :
    parse_tags (.arr (l.map TextEnt.obj)) = .ok (pyJoin " " (hashtag_texts l)) := by
  simp [parse_tags, tags_fold_objs, except_ok_bind]

theorem strRepeat_zero (s : String) : strRepeat s 0 = "" := rfl

theorem strRepeat_one (s : String) : strRepeat s 1 = s := by
  simp [strRepeat, String.join]

/-! ### Claims -/

/-- C1: the spec claims every span's raw text has the five escape sequences
(backslash-n, -r, -t, -double-quote, -backslash) replaced by their literal
single-character equivalents before formatting, so a raw backslash-n would
render as a real newline and backslash-backslash would collapse.  In the
code `deserialize_string` discards every `str.replace` result, so the text
passes through unchanged: a plain span whose raw text holds the
two-character sequence backslash-n renders with that sequence intact and
with no real newline, and a doubled backslash stays doubled. -/
theorem c1_deserialize_is_noop :
    (∀ s, deserialize_string s = s)
    ∧ parse_text_object 7 (.obj { type := "plain", text := "a\\nb" }) = .ok (some "a\\nb")
    ∧ strContainsSub "a\\nb" "\\n" = true
    ∧ countChar "a\\nb" '\n' = 0
    ∧ parse_text_object 7 (.obj { type := "plain", text := "x\\\\y" }) = .ok (some "x\\\\y")
    ∧ countChar "x\\\\y" '\\' = 2 :=
  ⟨fun _ => rfl, rfl, by decide, by decide, rfl, by decide⟩

/-- C2: the spec claims a `pre` span renders as the trimmed text wrapped in
triple backticks with each fence on its own line.  In the code the first
branch of `text_format` already matches the triple-backtick marker, so the
newline-inserting `elif` is dead and the fences sit inline with the text:
the rendering contains no newline at all. -/
theorem c2_pre_fences_inline :
    parse_text_object 7 (.obj { type := "pre", text := "print(1)" }) =
      .ok (some "```print(1)```")
    ∧ text_format "print(1)" "```" = "```print(1)```"
    ∧ countChar "```print(1)```" '\n' = 0 :=
  ⟨rfl, rfl, by decide⟩

/-- C3 (counterexample): the claim says a post missing a required field is
skipped and processing continues.  On an archive holding a `message` post
without `text_entities` followed by a well-formed post, the run aborts with
the uncaught `KeyError` and writes nothing, although the second post alone
would have produced a file. -/
theorem c3_hard_failure_aborts_run_cex :
    process_posts 1 [c3_bad, c3_good] = .error (.keyError "text_entities")
    ∧ process_posts 1 [c3_good] = .ok
        ⟨[("2021-01-02-2.md",
           "---\ntitle: 2\ndate: 2021-01-02 00:00:00\nlayout: post\n---\n\n\n")], []⟩ :=
  ⟨rfl, rfl⟩

/-- C3 (amended): `main` wraps no per-post exception handler, so a hard
per-post failure (a required field absent on an otherwise well-typed post)
raises an uncaught error that aborts the whole run: whatever posts follow
the failing one are never processed. -/
theorem c3_failure_propagates (uid : Int) (pre rest : List Post) (p : Post)
    (s : RunState) (e : PyErr)
    (hpre : process_posts uid pre = .ok s)
    (hp : process_one uid s p = .error e) :
    process_posts uid (pre ++ p :: rest) = .error e := by
  simp only [process_posts] at hpre ⊢
  exact foldlM_except_abort (process_one uid) pre ⟨[], []⟩ s p rest e hpre hp

theorem c3_failure_propagates_witness :
    process_posts 1 ([c3_svc] ++ c3_bad :: [c3_good]) = .error (.keyError "text_entities") :=
  c3_failure_propagates 1 [c3_svc] [c3_good] c3_bad ⟨[], []⟩ (.keyError "text_entities")
    rfl rfl

/-- C4: the spec claims a post whose `from_id` differs from the owner's
synthesized identity gets a `from` header field with the sender's name and
id.  The code instead executes `from_header += ...` on a local that was
never assigned, raising `UnboundLocalError`, so such a post produces no
header at all; a post sent by the owning account (or without `from_id`)
does get a header, and it carries no `from` field. -/
theorem c4_from_field_crash :
    print_default_post_header c4_post 1 = .error (.unboundLocalError "from_header")
    ∧ print_default_post_header c4_post_same 1 =
        .ok "---\ntitle: 1\ndate: 2021-01-01 00:00:00\nlayout: post\n---\n"
    ∧ strContainsSub "---\ntitle: 1\ndate: 2021-01-01 00:00:00\nlayout: post\n---\n"
        "from:" = false :=
  ⟨rfl, rfl, by decide⟩

/-- C5 (counterexample): the claim says a non-marker link-display span
renders as `[display](href)` with the original href, plus one extra
trailing newline when the display text contains a newline and ends with
one.  For display text `"a\nb\n"` and href `"https://t.me/c/7/9"` the code
instead rewrites the href to an anchor and appends two newlines. -/
theorem c5_link_newlines_cex :
    text_link_format "a\nb\n" "https://t.me/c/7/9" = "[a\nb\n](#9)\n\n"
    ∧ "[a\nb\n](#9)\n\n" ≠ "[a\nb\n](https://t.me/c/7/9)\n" :=
  ⟨rfl, by decide⟩

/-- C5 (amended): for every link-with-display-text span, a zero-width
marker text (zero-width space, doubled zero-width space, or non-breaking
space) renders as a block-quoted image embed of the href; otherwise the
output is `[display](target)` where the target is the href except that an
href starting with `https://t.me/c/` becomes `#` plus its final segment,
followed — exactly when the display text ends with a newline — by as many
extra newlines as the display text contains. -/
theorem c5_text_link_behavior (text link : String) :
    text_link_format text link = text_link_spec text link := by
  unfold text_link_format text_link_spec
  by_cases h1 : text = "\u200B"
  · simp [h1]
  by_cases h2 : text = "\u200B\u200B"
  · simp [h1, h2]
  by_cases h3 : text = " "
  · simp [h1, h2, h3]
  by_cases h4 : pyEndsWith text "\n"
  · simp [h1, h2, h3, h4, boolNat]
  · simp [h1, h2, h3, h4, boolNat]

/-- C6: the spec claims a bare-string element of the `text_entities` array
is appended verbatim to the body.  The loop's guard tests
`isinstance(post_raw_text, str)` — the whole array, never the element — so
a bare string falls through to `parse_text_object`, which subscripts it
with `'type'` and raises `TypeError`, aborting the post; an all-object
array is rendered span by span with absent results skipped. -/
theorem c6_bare_string_type_error :
    parse_post_text c6_post = .error .typeError
    ∧ parse_post_text c6_post_objs = .ok "hi**b**" :=
  ⟨rfl, rfl⟩

/-- C7: for every post carrying an id whose `text_entities` field is a
single plain string, `parse_post_text` returns that string verbatim — the
fast path performs no span iteration. -/
theorem c7_plain_string_fast_path (p : Post) (i : Int) (s : String)
    (hid : p.id? = some i) (ht : p.text_entities? = some (.str s)) :
    parse_post_text p = .ok s := by
  simp [parse_post_text, hid, ht, getKey, except_ok_bind]

theorem c7_plain_string_fast_path_witness :
    parse_post_text { id? := some 3, text_entities? := some (.str "hello world") } =
      .ok "hello world" :=
  c7_plain_string_fast_path
    { id? := some 3, text_entities? := some (.str "hello world") } 3 "hello world" rfl rfl

/-- C8 (counterexample): the claim says the header carries a `tags` field
whenever at least one hashtag span exists.  A post whose single hashtag
span has empty text yields an empty joined string, which is falsy, so the
header carries no `tags` field at all (the full header is shown and the
substring `tags` does not occur in it). -/
theorem c8_empty_hashtag_cex :
    print_default_post_header c8_post 1 =
      .ok "---\ntitle: 1\ndate: 2021-01-01 00:00:00\nlayout: post\n---\n"
    ∧ strContainsSub "---\ntitle: 1\ndate: 2021-01-01 00:00:00\nlayout: post\n---\n"
        "tags" = false :=
  ⟨rfl, by decide⟩

/-- C8 (amended): hashtag spans contribute no text to the rendered body
(dropping one from anywhere in the span sequence leaves the rendering
unchanged), and the header carries a `tags` field with every hashtag
span's text space-joined in original order (duplicates kept) exactly when
that joined string is nonempty; when no hashtag span exists — or when the
only hashtag texts are empty enough to join to the empty string — the
field is entirely absent. -/
theorem c8_hashtags_header_body :
    (∀ (pid : Int) (pre suf : List TextEnt) (o : TextObj), o.type = "hashtag" →
      render_spans pid (pre ++ TextEnt.obj o :: suf) = render_spans pid (pre ++ suf))
    ∧ (∀ (p : Post) (i : Int) (d : String) (l : List TextObj) (uid : Int),
        p.id? = some i → p.date? = some d →
        p.text_entities? = some (.arr (l.map TextEnt.obj)) →
        p.from_id? = none →
        print_default_post_header p uid = .ok (
          "---\n" ++ "title: " ++ toString i ++ "\n" ++
          "date: " ++ fromisoformat_str d ++ "\n" ++
          (if pyJoin " " (hashtag_texts l) = "" then ""
           else "tags: " ++ pyJoin " " (hashtag_texts l) ++ "\n") ++
          forwarded_part p ++ saved_part p ++ "layout: post\n" ++ "---\n")) := by
  constructor
  · intro pid pre suf o ho
    have hx : ∀ acc, body_step pid acc (TextEnt.obj o) = .ok acc := by
      intro acc
      simp [body_step, parse_text_object_hashtag pid o ho, except_ok_bind]
    simp only [render_spans]
    exact foldlM_except_skip (body_step pid) (TextEnt.obj o) hx pre suf ""
  · intro p i d l uid hid hd ht hfrom
    simp only [print_default_post_header, hid, hd, ht, hfrom, getKey, except_ok_bind,
      parse_tags_objs]
    by_cases h : pyJoin " " (hashtag_texts l) = ""
    · simp [h, String.append_assoc]
    · simp [h, String.append_assoc]
      rw [show ("\ntags: " : String) = "\n" ++ "tags: " from rfl, String.append_assoc]

theorem c8_hashtags_header_body_witness :
    render_spans 4 ([] ++ TextEnt.obj { type := "hashtag", text := "#a" } :: []) =
      render_spans 4 ([] ++ [])
    ∧ print_default_post_header c8_post_tags 1 =
        .ok "---\ntitle: 4\ndate: 2021-03-04 05:06:07\ntags: #a #b\nlayout: post\n---\n" := by
  constructor
  · exact c8_hashtags_header_body.1 4 [] [] { type := "hashtag", text := "#a" } rfl
  · have h := c8_hashtags_header_body.2 c8_post_tags 4 "2021-03-04T05:06:07"
      [{ type := "hashtag", text := "#a" },
       { type := "plain", text := "x" },
       { type := "hashtag", text := "#b" }] 1 rfl rfl rfl rfl
    simpa using h

/-- C9: for every bare `link` or `email` span, the (de-escaped) text is
trimmed and rendered as an angle-bracket autolink; for kind `link` an
`https://` prefix is prepended exactly when the trimmed text lacks it, and
for kind `email` no prefix is ever added — as stated by the spec-side
`autolink_spec`. -/
theorem c9_autolink (pid : Int) (o : TextObj)
    (h : o.type = "link" ∨ o.type = "email") :
    parse_text_object pid (.obj o) = .ok (some (autolink_spec o.type o.text)) := by
  rcases h with h | h
  · by_cases hs : pyStartsWith (pyStrip o.text) "https://"
    · simp [parse_text_object, autolink_spec, deserialize_string, h, hs, boolNat,
        strRepeat_zero, strRepeat_one]
    · simp [parse_text_object, autolink_spec, deserialize_string, h, hs, boolNat,
        strRepeat_zero, strRepeat_one]
  · simp [parse_text_object, autolink_spec, deserialize_string, h, boolNat,
      strRepeat_zero, strRepeat_one]

theorem c9_autolink_witness :
    parse_text_object 9 (.obj { type := "link", text := "example.com" }) =
      .ok (some (autolink_spec "link" "example.com"))
    ∧ autolink_spec "link" "example.com" = "<https://example.com>" :=
  ⟨c9_autolink 9 { type := "link", text := "example.com" } (Or.inl rfl), rfl⟩

/-- C10 (counterexample): the claim says the rendered output of a
`t.me/c/`-href link span does not contain the original href.  When the
display text itself is the href, the output `[text](#last)` still contains
the href verbatim inside the brackets. -/
theorem c10_href_contained_cex :
    text_link_format "https://t.me/c/1/2" "https://t.me/c/1/2" = "[https://t.me/c/1/2](#2)"
    ∧ strContainsSub "[https://t.me/c/1/2](#2)" "https://t.me/c/1/2" = true :=
  ⟨rfl, by decide⟩

/-- C10 (amended): for every link-with-display-text span whose text is not
a zero-width marker and does not end with a newline, and whose href starts
with `https://t.me/c/`, the output is `[text](#last-segment)` with the
link target replaced by `#` plus the substring after the href's final
slash (the original href is no longer the link target, though it may still
occur inside the display text). -/
theorem c10_tme_anchor (text link : String)
    (hz : ¬(text = "​" ∨ text = "​​" ∨ text = " "))
    (hpre : pyStartsWith link "https://t.me/c/" = true)
    (hnl : pyEndsWith text "\n" = false) :
    text_link_format text link =
      "[" ++ text ++ "](#" ++ (pySplitChar link '/').getLastD "" ++ ")" := by
  push_neg at hz
  obtain ⟨h1, h2, h3⟩ := hz
  simp [text_link_format, h1, h2, h3, hpre, hnl, boolNat, strRepeat_zero,
    String.append_assoc]
  rw [show ("](#" : String) = "](" ++ "#" from rfl, String.append_assoc]

theorem c10_tme_anchor_witness :
    text_link_format "x" "https://t.me/c/1/2" =
      "[" ++ "x" ++ "](#" ++ (pySplitChar "https://t.me/c/1/2" '/').getLastD "" ++ ")" :=
  c10_tme_anchor "x" "https://t.me/c/1/2" (by decide) rfl rfl

end Tg2md
